import Mathlib

/-!
Verification development for the business-doctor ROI core.

The definitions below are a shallow embedding of the Python modules
`src/core/business_analyzer.py`, `src/core/data_pipeline.py` and
`src/core/business_doctor_engine.py`.  Python floats are modelled as
rationals, Python dictionaries with optional keys as structures of
`Option` fields, and the `ZeroDivisionError` that a division by zero
raises as an `Option` result (`none` = exception propagated).
Python `list.sort(key=..., reverse=True)` is a stable descending sort
by the key; it is modelled by the insertion sort `sortDescBy`, whose
sortedness and stability are proved below.
-/

namespace BusinessDoctor

/-- Insert an element into a list that is sorted descending by `key`,
placing it in front of the first element whose key is not greater:
this keeps earlier-inserted equal-key elements behind the new one,
which is exactly what makes the overall sort stable. -/
def insertDescBy {α : Type} (key : α → ℚ) (x : α) : List α → List α
  | [] => [x]
  | y :: t => if key x < key y then y :: insertDescBy key x t else x :: y :: t

/-- Stable descending insertion sort by a rational key: the model of
Python `list.sort(key=..., reverse=True)` / `sorted(..., reverse=True)`. -/
def sortDescBy {α : Type} (key : α → ℚ) : List α → List α
  | [] => []
  | x :: l => insertDescBy key x (sortDescBy key l)

/-!
Data model of `business_analyzer.py`.  The Python functions receive
plain dictionaries; the keys each function reads are modelled as
`Option` fields (`none` = key absent), and `dict.get(k, d)` as
`Option.getD`.
-/

/-- Python `str.lower()` over the ASCII strings this code handles,
written directly over the character list so that it evaluates by
kernel reduction. -/
def pyLower (s : String) : String := ⟨s.data.map Char.toLower⟩

/-- The company-metrics dictionary, with the keys `business_analyzer.py`
reads: company_name, industry, employee_count, annual_revenue and the
optional average_hourly_cost override. -/
structure CompanyMetrics where
  company_name : Option String
  industry : Option String
  employee_count : Option ℚ
  annual_revenue : Option ℚ
  average_hourly_cost : Option ℚ
deriving DecidableEq

/-- The bottleneck dictionary, with the keys read by
`calculate_bottleneck_roi`, `_calculate_confidence` and
`generate_executive_summary`. -/
structure Bottleneck where
  name : Option String
  frequency : Option String
  time_impact_hours : Option ℚ
  cost_impact : Option ℚ
  annual_hours_impact : Option ℚ
  annual_cost_impact : Option ℚ
  automation_potential : Option ℚ
  solution_complexity : Option String
deriving DecidableEq

/-- The `ROICalculation` dataclass.  `payback_period_months` is
`Option ℚ`: `none` models the Python value `float(\x27inf\x27)`
(positive infinity), `some q` a finite number of months. -/
structure ROICalculation where
  description : String
  current_cost : ℚ
  improved_cost : ℚ
  implementation_cost : ℚ
  time_to_implement_days : ℚ
  annual_savings : ℚ
  roi_percentage : ℚ
  payback_period_months : Option ℚ
  confidence_level : ℚ
deriving DecidableEq

/-- One entry of the constant `INDUSTRY_BENCHMARKS` class attribute. -/
structure IndustryBenchmark where
  revenue_per_employee : ℚ
  billable_hours_percentage : ℚ
  admin_overhead_percentage : ℚ
  typical_hourly_rate : ℚ
deriving DecidableEq

/-- The `INDUSTRY_BENCHMARKS["default"]` entry. -/
def defaultBenchmark : IndustryBenchmark := ⟨100000, 1/2, 1/2, 75⟩

/-- The constant `INDUSTRY_BENCHMARKS` table, as an optional lookup. -/
def industryBenchmarks (s : String) : Option IndustryBenchmark :=
  if s = "legal" then some ⟨200000, 65/100, 35/100, 300⟩
  else if s = "accounting" then some ⟨150000, 70/100, 30/100, 200⟩
  else if s = "consulting" then some ⟨175000, 75/100, 25/100, 250⟩
  else if s = "msp" then some ⟨125000, 60/100, 40/100, 150⟩
  else if s = "default" then some defaultBenchmark
  else none

/-- `INDUSTRY_BENCHMARKS.get(industry, INDUSTRY_BENCHMARKS["default"])`. -/
def lookupBenchmarks (industry : String) : IndustryBenchmark :=
  (industryBenchmarks industry).getD defaultBenchmark

/-- Python truthiness of a possibly-missing numeric dictionary value:
`dict.get(k)` is falsy when the key is absent or the value is zero. -/
def truthyQ (o : Option ℚ) : Bool :=
  match o with
  | none => false
  | some v => decide (v ≠ 0)

/-- Python truthiness of a possibly-missing string dictionary value:
falsy when absent or the empty string. -/
def truthyS (o : Option String) : Bool :=
  match o with
  | none => false
  | some s => decide (s ≠ "")

/-- `BusinessAnalyzer._calculate_confidence`: base 0.5, plus 0.1 for
each truthy data-completeness factor, capped at 1.0. -/
def calculateConfidence (b : Bottleneck) (m : CompanyMetrics) : ℚ :=
  let c0 : ℚ := 1/2
  let c1 := if truthyQ b.time_impact_hours then c0 + 1/10 else c0
  let c2 := if truthyQ b.cost_impact then c1 + 1/10 else c1
  let c3 := if truthyS b.frequency then c2 + 1/10 else c2
  let c4 := if truthyQ m.annual_revenue then c3 + 1/10 else c3
  let c5 := if truthyQ m.employee_count then c4 + 1/10 else c4
  min c5 1

/-- `complexity_multiplier.get(solution_complexity, 25000)` from
`calculate_bottleneck_roi`. -/
def complexityCost (s : String) : ℚ :=
  if s = "low" then 10000
  else if s = "medium" then 25000
  else if s = "high" then 50000
  else 25000

/-- `time_multiplier.get(solution_complexity, 60)` from
`calculate_bottleneck_roi`. -/
def complexityTime (s : String) : ℚ :=
  if s = "low" then 30
  else if s = "medium" then 60
  else if s = "high" then 90
  else 60

/-- `BusinessAnalyzer._get_hourly_cost`: the explicit override if the
key is present, else derived from revenue and employees (60 percent
labor share over 2000 hours per employee), else the typical
hourly rate of the industry benchmark. -/
def getHourlyCost (m : CompanyMetrics) : ℚ :=
  match m.average_hourly_cost with
  | some v => v
  | none =>
    let revenue := m.annual_revenue.getD 0
    let employees := m.employee_count.getD 1
    if revenue > 0 ∧ employees > 0 then
      let annual_labor_cost := revenue * (6/10)
      let total_hours := employees * 2000
      if total_hours > 0 then annual_labor_cost / total_hours else 75
    else
      (lookupBenchmarks (pyLower (m.industry.getD "default"))).typical_hourly_rate

/-- `current_cost = bottleneck.get("annual_hours_impact", 0) * hourly_cost`. -/
def currentCostOf (b : Bottleneck) (m : CompanyMetrics) : ℚ :=
  (b.annual_hours_impact.getD 0) * getHourlyCost m

/-- `improved_cost = current_cost * (1 - automation_potential)` with the
0.7 default for a missing automation_potential. -/
def improvedCostOf (b : Bottleneck) (m : CompanyMetrics) : ℚ :=
  currentCostOf b m * (1 - b.automation_potential.getD (7/10))

/-- `annual_savings = current_cost - improved_cost`. -/
def annualSavingsOf (b : Bottleneck) (m : CompanyMetrics) : ℚ :=
  currentCostOf b m - improvedCostOf b m

/-- The `ROICalculation` value built by
`BusinessAnalyzer.calculate_bottleneck_roi` (the method body minus the
`self.calculations.append`, which is modelled separately by
`calculateBottleneckRoiS`).  The per-item guard `if annual_savings > 0`
keeps both divisions safe; otherwise roi is 0 and payback is infinite
(`none`). -/
def mkRoiCalc (b : Bottleneck) (m : CompanyMetrics) : ROICalculation :=
  let complexity := b.solution_complexity.getD "medium"
  { description := "Automate " ++ b.name.getD "process"
    current_cost := currentCostOf b m
    improved_cost := improvedCostOf b m
    implementation_cost := complexityCost complexity
    time_to_implement_days := complexityTime complexity
    annual_savings := annualSavingsOf b m
    roi_percentage :=
      if annualSavingsOf b m > 0 then
        (annualSavingsOf b m - complexityCost complexity) / complexityCost complexity * 100
      else 0
    payback_period_months :=
      if annualSavingsOf b m > 0 then
        some (complexityCost complexity / annualSavingsOf b m * 12)
      else none
    confidence_level := calculateConfidence b m }

/-- `calculate_bottleneck_roi` including its side effect on the
analyzer: the state is `self.calculations`, and the method appends the
freshly computed `ROICalculation` to it before returning it. -/
def calculateBottleneckRoiS (b : Bottleneck) (m : CompanyMetrics)
    (s : List ROICalculation) : ROICalculation × List ROICalculation :=
  let r := mkRoiCalc b m
  (r, s ++ [r])

/-- The `for bottleneck in bottlenecks` loop of `calculate_portfolio_roi`,
threading `self.calculations` through each `calculate_bottleneck_roi`
call. -/
def portfolioCalcsS (m : CompanyMetrics) :
    List Bottleneck → List ROICalculation → List ROICalculation × List ROICalculation
  | [], s => ([], s)
  | b :: bs, s =>
    let p := calculateBottleneckRoiS b m s
    let rest := portfolioCalcsS m bs p.2
    (p.1 :: rest.1, rest.2)

/-- One entry of the `individual_projects` list returned by
`calculate_portfolio_roi`. -/
structure ProjectSummary where
  description : String
  annual_savings : ℚ
  roi_percentage : ℚ
  payback_months : Option ℚ
  confidence : ℚ
deriving DecidableEq

/-- The `portfolio_summary` dictionary of `calculate_portfolio_roi`. -/
structure PortfolioSummary where
  total_current_cost : ℚ
  total_improved_cost : ℚ
  total_implementation_cost : ℚ
  total_annual_savings : ℚ
  portfolio_roi_percentage : ℚ
  portfolio_payback_months : ℚ
  number_of_improvements : Nat
deriving DecidableEq

/-- A strategic recommendation from `_generate_recommendations`.  The
Python function emits formatted strings; each constructor carries
exactly the data interpolated into the corresponding string (count of
matching items and their combined annual savings). -/
inductive Recommendation where
  | quickWins (count : Nat) (combined_savings : ℚ)
  | highImpact (count : Nat) (combined_savings : ℚ)
  | phasedApproach
deriving DecidableEq

/-- One phase dictionary from `_create_implementation_phases`. -/
structure Phase where
  phase : Nat
  name : String
  duration : String
  projects : List String
  investment : ℚ
  expected_savings : ℚ
deriving DecidableEq

/-- The dictionary returned by `calculate_portfolio_roi`. -/
structure PortfolioResult where
  individual_projects : List ProjectSummary
  portfolio_summary : PortfolioSummary
  recommendations : List Recommendation
  implementation_phases : List Phase
deriving DecidableEq

/-- The sort key of `portfolio_calculations.sort(key=..., reverse=True)`. -/
def roiKey (c : ROICalculation) : ℚ := c.roi_percentage

/-- The dictionary projection building one `individual_projects` entry. -/
def projOf (c : ROICalculation) : ProjectSummary :=
  ⟨c.description, c.annual_savings, c.roi_percentage, c.payback_period_months,
    c.confidence_level⟩

/-- `BusinessAnalyzer._generate_recommendations`: quick wins
(roi above 100 and at most 30 days), high impact (savings above 50000),
and a phased-rollout note for more than 5 items; each emitted only when
its item set is non-empty. -/
def generateRecommendations (calcs : List ROICalculation) : List Recommendation :=
  let quick_wins := calcs.filter
    (fun c => decide (c.roi_percentage > 100) && decide (c.time_to_implement_days ≤ 30))
  let high_impact := calcs.filter (fun c => decide (c.annual_savings > 50000))
  (if quick_wins.isEmpty then []
    else [Recommendation.quickWins quick_wins.length
      ((quick_wins.map ROICalculation.annual_savings).sum)])
  ++ (if high_impact.isEmpty then []
    else [Recommendation.highImpact high_impact.length
      ((high_impact.map ROICalculation.annual_savings).sum)])
  ++ (if calcs.length > 5 then [Recommendation.phasedApproach] else [])

/-- The phase-ordering key of `_create_implementation_phases`:
`x.roi_percentage / max(x.time_to_implement_days, 1)`. -/
def phaseKey (c : ROICalculation) : ℚ :=
  c.roi_percentage / max c.time_to_implement_days 1

/-- One phase dictionary: ordered project descriptions, summed
implementation cost and summed annual savings of its items. -/
def mkPhase (n : Nat) (name duration : String) (items : List ROICalculation) : Phase :=
  ⟨n, name, duration, items.map ROICalculation.description,
    (items.map ROICalculation.implementation_cost).sum,
    (items.map ROICalculation.annual_savings).sum⟩

/-- `BusinessAnalyzer._create_implementation_phases`: stable descending
sort by `phaseKey`, then three take-3 filters (`calc not in phase1`,
`calc not in phase1 + phase2` are value-membership tests, since the
dataclass compares field-wise); an empty phase is not appended. -/
def createImplementationPhases (calcs : List ROICalculation) : List Phase :=
  let sorted_calcs := sortDescBy phaseKey calcs
  let phase1 := (sorted_calcs.filter
    (fun c => decide (c.time_to_implement_days ≤ 30) && decide (c.roi_percentage > 50))).take 3
  let phase2 := (sorted_calcs.filter
    (fun c => !(decide (c ∈ phase1)) && decide (c.time_to_implement_days ≤ 90))).take 3
  let phase3 := (sorted_calcs.filter
    (fun c => !(decide (c ∈ phase1 ++ phase2)))).take 3
  (if phase1.isEmpty then [] else [mkPhase 1 "Quick Wins" "0-30 days" phase1])
  ++ (if phase2.isEmpty then [] else [mkPhase 2 "Core Improvements" "31-90 days" phase2])
  ++ (if phase3.isEmpty then [] else [mkPhase 3 "Full Transformation" "91-180 days" phase3])

/-- The aggregation part of `calculate_portfolio_roi`, as a function of
the per-item calculations.  The list is sorted in place before the
totals are taken.  The guard `if total_implementation_cost > 0` does
not protect the payback division, whose denominator is
`total_annual_savings`: when that is zero inside the guarded branch,
Python raises `ZeroDivisionError`, modelled here as `none`.  With a
zero total implementation cost both portfolio values fall back to 0. -/
def portfolioFromCalcs (calcs : List ROICalculation) : Option PortfolioResult :=
  let sorted := sortDescBy roiKey calcs
  let total_current_cost := (sorted.map ROICalculation.current_cost).sum
  let total_improved_cost := (sorted.map ROICalculation.improved_cost).sum
  let total_implementation_cost := (sorted.map ROICalculation.implementation_cost).sum
  let total_annual_savings := (sorted.map ROICalculation.annual_savings).sum
  if total_implementation_cost > 0 then
    if total_annual_savings = 0 then none
    else some
      { individual_projects := (sorted.take 10).map projOf
        portfolio_summary :=
          ⟨total_current_cost, total_improved_cost, total_implementation_cost,
            total_annual_savings,
            (total_annual_savings - total_implementation_cost) / total_implementation_cost * 100,
            total_implementation_cost / total_annual_savings * 12,
            sorted.length⟩
        recommendations := generateRecommendations sorted
        implementation_phases := createImplementationPhases sorted }
  else some
    { individual_projects := (sorted.take 10).map projOf
      portfolio_summary :=
        ⟨total_current_cost, total_improved_cost, total_implementation_cost,
          total_annual_savings, 0, 0, sorted.length⟩
      recommendations := generateRecommendations sorted
      implementation_phases := createImplementationPhases sorted }

/-- `calculate_portfolio_roi` with its state effect: the per-item loop
appends every computed calculation to `self.calculations`; the
aggregation itself reads none of that state. -/
def calculatePortfolioRoiS (bs : List Bottleneck) (m : CompanyMetrics)
    (s : List ROICalculation) : Option PortfolioResult × List ROICalculation :=
  let p := portfolioCalcsS m bs s
  (portfolioFromCalcs p.1, p.2)

/-- `calculate_portfolio_roi` on a fresh analyzer, result component only. -/
def calculatePortfolioRoi (bs : List Bottleneck) (m : CompanyMetrics) :
    Option PortfolioResult :=
  (calculatePortfolioRoiS bs m []).1

/-- The comparison dictionary returned by
`benchmark_against_industry`.  The two message strings of the Python
function are pure presentations of `improvement_potential` and are not
modelled separately. -/
structure BenchmarkResult where
  company_rpe : ℚ
  industry_rpe : ℚ
  difference_percentage : ℚ
  estimated_billable_percentage : ℚ
  estimated_overhead_percentage : ℚ
  industry_hourly_rate : ℚ
  performance_rating : String
  improvement_potential : ℚ
deriving DecidableEq

/-- `BusinessAnalyzer.benchmark_against_industry`.  Note the zero
branch: with `employee_count` equal to 0 the company
revenue-per-employee is reported as 0 (`revenue / employees if
employees > 0 else 0`), while a missing `employee_count` defaults
to 1. -/
def benchmarkAgainstIndustry (m : CompanyMetrics) : BenchmarkResult :=
  let industry := pyLower (m.industry.getD "default")
  let benchmarks := lookupBenchmarks industry
  let employees := m.employee_count.getD 1
  let revenue := m.annual_revenue.getD 0
  let revenue_per_employee := if employees > 0 then revenue / employees else 0
  let diff :=
    if benchmarks.revenue_per_employee > 0 then
      (revenue_per_employee - benchmarks.revenue_per_employee)
        / benchmarks.revenue_per_employee * 100
    else 0
  let performance :=
    if diff > 20 then "Above Average"
    else if diff > -20 then "Average"
    else "Below Average"
  let improvement :=
    if performance = "Below Average" then
      (benchmarks.revenue_per_employee - revenue_per_employee) * employees
    else 0
  { company_rpe := revenue_per_employee
    industry_rpe := benchmarks.revenue_per_employee
    difference_percentage := diff
    estimated_billable_percentage := benchmarks.billable_hours_percentage
    estimated_overhead_percentage := benchmarks.admin_overhead_percentage
    industry_hourly_rate := benchmarks.typical_hourly_rate
    performance_rating := performance
    improvement_potential := improvement }

/-- `benchmark_against_industry` with the analyzer state made explicit:
the method never reads or writes `self.calculations`. -/
def benchmarkAgainstIndustryS (m : CompanyMetrics) (s : List ROICalculation) :
    BenchmarkResult × List ROICalculation :=
  (benchmarkAgainstIndustry m, s)

/-- The tier of `_generate_executive_recommendation`, carrying the
numbers interpolated into the corresponding message. -/
inductive ExecTier where
  | stronglyRecommended (roi : ℚ) (payback : ℚ)
  | recommended (roi : ℚ) (payback : ℚ)
  | worthConsidering
deriving DecidableEq

/-- The executive recommendation: the tier message plus the optional
below-average sentence, which cites the improvement potential. -/
structure ExecRecommendation where
  tier : ExecTier
  below_average_note : Option ℚ
deriving DecidableEq

/-- `BusinessAnalyzer._generate_executive_recommendation`. -/
def generateExecutiveRecommendation (p : PortfolioResult) (b : BenchmarkResult) :
    ExecRecommendation :=
  let roi := p.portfolio_summary.portfolio_roi_percentage
  let payback := p.portfolio_summary.portfolio_payback_months
  let tier :=
    if roi > 200 ∧ payback < 6 then ExecTier.stronglyRecommended roi payback
    else if roi > 100 ∧ payback < 12 then ExecTier.recommended roi payback
    else ExecTier.worthConsidering
  { tier := tier
    below_average_note :=
      if b.performance_rating = "Below Average" then some b.improvement_potential
      else none }

/-- The `company_snapshot` dictionary of `generate_executive_summary`. -/
structure CompanySnapshot where
  name : String
  employees : ℚ
  annual_revenue : ℚ
  industry : String
deriving DecidableEq

/-- The `key_findings` dictionary of `generate_executive_summary`. -/
structure KeyFindings where
  total_inefficiency_hours_annual : ℚ
  total_inefficiency_cost_annual : ℚ
  number_of_bottlenecks : Nat
  automation_opportunity : ℚ
deriving DecidableEq

/-- The `roi_highlights` dictionary of `generate_executive_summary`. -/
structure RoiHighlights where
  total_investment_required : ℚ
  annual_savings_potential : ℚ
  roi_percentage : ℚ
  payback_period_months : ℚ
deriving DecidableEq

/-- The summary dictionary returned by `generate_executive_summary`. -/
structure ExecutiveSummary where
  company_snapshot : CompanySnapshot
  key_findings : KeyFindings
  roi_highlights : RoiHighlights
  industry_comparison : BenchmarkResult
  top_3_opportunities : List ProjectSummary
  executive_recommendation : ExecRecommendation
deriving DecidableEq

/-- `BusinessAnalyzer.generate_executive_summary` with its state
effect: it first runs `calculate_portfolio_roi` (which appends each
per-item calculation to `self.calculations` and whose
`ZeroDivisionError` propagates), then the state-free benchmark and the
summary assembly. -/
def generateExecutiveSummaryS (m : CompanyMetrics) (bs : List Bottleneck)
    (s : List ROICalculation) : Option ExecutiveSummary × List ROICalculation :=
  let ps := calculatePortfolioRoiS bs m s
  (ps.1.map (fun p =>
    let bench := benchmarkAgainstIndustry m
    { company_snapshot :=
        { name := m.company_name.getD "Company"
          employees := m.employee_count.getD 0
          annual_revenue := m.annual_revenue.getD 0
          industry := m.industry.getD "Unknown" }
      key_findings :=
        { total_inefficiency_hours_annual :=
            (bs.map (fun b => b.annual_hours_impact.getD 0)).sum
          total_inefficiency_cost_annual :=
            (bs.map (fun b => b.annual_cost_impact.getD 0)).sum
          number_of_bottlenecks := bs.length
          automation_opportunity := p.portfolio_summary.total_annual_savings }
      roi_highlights :=
        { total_investment_required := p.portfolio_summary.total_implementation_cost
          annual_savings_potential := p.portfolio_summary.total_annual_savings
          roi_percentage := p.portfolio_summary.portfolio_roi_percentage
          payback_period_months := p.portfolio_summary.portfolio_payback_months }
      industry_comparison := bench
      top_3_opportunities := p.individual_projects.take 3
      executive_recommendation := generateExecutiveRecommendation p bench }),
    ps.2)

/-!
Data model of the bottleneck processor in `data_pipeline.py` and the
annualization method in `business_doctor_engine.py`.
-/

/-- The data fields of a bottleneck `DataRecord` that
`DataProcessors.process_bottleneck` reads (the record id is not
modelled; the function only generates it when absent). -/
structure BottleneckRecord where
  frequency : Option String
  time_impact_hours : Option ℚ
  cost_impact : Option ℚ
  priority : Option String
deriving DecidableEq

/-- The record data after `process_bottleneck`: the original fields
plus the computed annual impacts and the (supplied or derived)
priority. -/
structure ProcessedBottleneck where
  frequency : Option String
  time_impact_hours : Option ℚ
  cost_impact : Option ℚ
  annual_hours_impact : ℚ
  annual_cost_impact : ℚ
  priority : String
deriving DecidableEq

/-- `frequency_multiplier.get(..., 52)` of
`DataProcessors.process_bottleneck`: note the unrecognized-frequency
default is 52, and the lookup is case-sensitive. -/
def pipelineFrequencyMultiplier (f : String) : ℚ :=
  if f = "daily" then 250
  else if f = "weekly" then 52
  else if f = "monthly" then 12
  else if f = "quarterly" then 4
  else 52

/-- The default-priority ladder of `process_bottleneck`, applied when
no explicit priority is supplied. -/
def derivedPriority (annual_cost_impact : ℚ) : String :=
  if annual_cost_impact > 100000 then "critical"
  else if annual_cost_impact > 50000 then "high"
  else if annual_cost_impact > 10000 then "medium"
  else "low"

/-- `DataProcessors.process_bottleneck`: a missing frequency defaults
to "weekly", annual impacts are the per-occurrence values scaled by the
multiplier, and the priority is derived from `annual_cost_impact` only
when the record supplies none. -/
def processBottleneck (r : BottleneckRecord) : ProcessedBottleneck :=
  let multiplier := pipelineFrequencyMultiplier (r.frequency.getD "weekly")
  let annual_hours := (r.time_impact_hours.getD 0) * multiplier
  let annual_cost := (r.cost_impact.getD 0) * multiplier
  { frequency := r.frequency
    time_impact_hours := r.time_impact_hours
    cost_impact := r.cost_impact
    annual_hours_impact := annual_hours
    annual_cost_impact := annual_cost
    priority :=
      match r.priority with
      | some p => p
      | none => derivedPriority annual_cost }

/-- The `ProcessBottleneck` dataclass of `business_doctor_engine.py`
(all fields required). -/
structure ProcessBottleneckData where
  name : String
  description : String
  department : String
  frequency : String
  time_impact_hours : ℚ
  cost_impact : ℚ
  automation_potential : ℚ
  priority : String
deriving DecidableEq

/-- `frequency_multiplier.get(self.frequency.lower(), 12)` of
`ProcessBottleneck.calculate_annual_impact`: the
unrecognized-frequency default here is 12. -/
def engineFrequencyMultiplier (f : String) : ℚ :=
  if f = "daily" then 250
  else if f = "weekly" then 52
  else if f = "monthly" then 12
  else if f = "quarterly" then 4
  else 12

/-- `ProcessBottleneck.calculate_annual_impact`: lowercases the
frequency, looks up the multiplier (default 12) and scales the
per-occurrence hours and cost. -/
def calculateAnnualImpact (b : ProcessBottleneckData) : ℚ × ℚ :=
  let multiplier := engineFrequencyMultiplier (pyLower b.frequency)
  (b.time_impact_hours * multiplier, b.cost_impact * multiplier)

/-!
Second definitions of the implementation-phase lists, following the
wording of the specification ("phase 2 is the next 3 items not already
in phase 1 ...", "a phase with zero qualifying items is omitted"), to
be compared with `createImplementationPhases` from the source.
-/

/-- Specification wording: the first 3 items, in stable descending
`phaseKey` order, with time to implement at most 30 days and roi above
50 percent. -/
def phase1Spec (calcs : List ROICalculation) : List ROICalculation :=
  ((sortDescBy phaseKey calcs).filter
    (fun c => decide (c.time_to_implement_days ≤ 30) && decide (c.roi_percentage > 50))).take 3

/-- Specification wording: the next 3 items not already in phase 1 with
time to implement at most 90 days. -/
def phase2Spec (calcs : List ROICalculation) : List ROICalculation :=
  ((sortDescBy phaseKey calcs).filter
    (fun c => !(decide (c ∈ phase1Spec calcs)) && decide (c.time_to_implement_days ≤ 90))).take 3

/-- Specification wording: the next 3 remaining items, in neither
phase 1 nor phase 2, with no further filter. -/
def phase3Spec (calcs : List ROICalculation) : List ROICalculation :=
  ((sortDescBy phaseKey calcs).filter
    (fun c => !(decide (c ∈ phase1Spec calcs)) && !(decide (c ∈ phase2Spec calcs)))).take 3

/-- Specification wording of the whole phase plan: the three phases in
order, each omitted (not emitted empty) when it has no qualifying
items. -/
def phasesSpec (calcs : List ROICalculation) : List Phase :=
  (if phase1Spec calcs = [] then []
    else [mkPhase 1 "Quick Wins" "0-30 days" (phase1Spec calcs)])
  ++ (if phase2Spec calcs = [] then []
    else [mkPhase 2 "Core Improvements" "31-90 days" (phase2Spec calcs)])
  ++ (if phase3Spec calcs = [] then []
    else [mkPhase 3 "Full Transformation" "91-180 days" (phase3Spec calcs)])

/-!
Concrete inputs used by counterexamples and witnesses.
-/

/-- Metrics with only the explicit hourly-cost override set. -/
def mC1 : CompanyMetrics := ⟨none, none, none, none, some 100⟩

/-- A bottleneck with zero annualized hours: its annual savings are 0
while its implementation cost defaults to 25000. -/
def bC1 : Bottleneck := ⟨some "x", none, none, none, some 0, none, none, none⟩

/-- Record with an unrecognized frequency string. -/
def rC2 : BottleneckRecord := ⟨some "yearly", some 1, some 1, some "low"⟩

/-- Metrics reporting zero employees and positive revenue. -/
def mC3 : CompanyMetrics := ⟨none, none, some 0, some 100000, none⟩

/-- Metrics for the state-mutation counterexample. -/
def mC4 : CompanyMetrics := ⟨none, none, none, none, none⟩

/-- Bottleneck for the state-mutation counterexample. -/
def bC4 : Bottleneck := ⟨none, none, none, none, none, none, none, none⟩

/-- Witness metrics: hourly cost 1. -/
def mW5 : CompanyMetrics := ⟨none, none, none, none, some 1⟩

/-- Witness bottleneck: 200 annualized hours, half automatable, low
complexity. -/
def bW5 : Bottleneck := ⟨none, none, none, none, some 200, none, some (1/2), some "low"⟩

/-- The per-item calculation produced for `bW5` under `mW5`. -/
def cW5 : ROICalculation :=
  ⟨"Automate process", 200, 100, 10000, 30, 100, -99, some 1200, 1/2⟩

/-- The portfolio produced for `[bW5]` under `mW5`. -/
def rW5 : PortfolioResult :=
  ⟨[projOf cW5],
    ⟨200, 100, 10000, 100, -99, 1200, 1⟩,
    [],
    [mkPhase 2 "Core Improvements" "31-90 days" [cW5]]⟩

/-- Witness bottleneck with zero automation potential. -/
def bW7 : Bottleneck := ⟨none, none, none, none, some 100, none, some 0, none⟩

/-- Witness metrics: hourly cost 50. -/
def mW7 : CompanyMetrics := ⟨none, none, none, none, some 50⟩

/-- Witness metrics with zero employees and positive revenue. -/
def mW3 : CompanyMetrics := ⟨none, none, some 0, some 55, none⟩

/-- Witness record whose annual cost impact is exactly 100000. -/
def rW9 : BottleneckRecord := ⟨none, none, some (100000/52), none⟩

/-!
Theorems.  First the generic facts about the stable descending sort,
then one theorem (plus witness or counterexample) per specification
claim.
-/

theorem mem_insertDescBy {α : Type} (key : α → ℚ) (x a : α) (l : List α) :
    a ∈ insertDescBy key x l ↔ a = x ∨ a ∈ l := by
  induction l with
  | nil => simp [insertDescBy]
  | cons y t ih =>
    unfold insertDescBy
    split
    · simp only [List.mem_cons, ih]
      tauto
    · simp only [List.mem_cons]

theorem length_insertDescBy {α : Type} (key : α → ℚ) (x : α) (l : List α) :
    (insertDescBy key x l).length = l.length + 1 := by
  induction l with
  | nil => rfl
  | cons y t ih =>
    unfold insertDescBy
    split
    · simp only [List.length_cons, ih]
    · simp only [List.length_cons]

theorem length_sortDescBy {α : Type} (key : α → ℚ) (l : List α) :
    (sortDescBy key l).length = l.length := by
  induction l with
  | nil => rfl
  | cons x t ih =>
    unfold sortDescBy
    rw [length_insertDescBy, ih, List.length_cons]

/-- Inserting preserves descending sortedness by the key. -/
theorem pairwise_insertDescBy {α : Type} (key : α → ℚ) (x : α) (l : List α)
    (h : l.Pairwise (fun a b => key b ≤ key a)) :
    (insertDescBy key x l).Pairwise (fun a b => key b ≤ key a) := by
  induction l with
  | nil => simp [insertDescBy]
  | cons y t ih =>
    rw [List.pairwise_cons] at h
    unfold insertDescBy
    split
    · rename_i hlt
      rw [List.pairwise_cons]
      refine ⟨?_, ih h.2⟩
      intro z hz
      rcases (mem_insertDescBy key x z t).1 hz with hzx | hzt
      · subst hzx; exact le_of_lt hlt
      · exact h.1 z hzt
    · rename_i hge
      rw [List.pairwise_cons]
      constructor
      · intro z hz
        rcases List.mem_cons.1 hz with hzy | hzt
        · subst hzy; exact le_of_not_lt hge
        · exact le_trans (h.1 z hzt) (le_of_not_lt hge)
      · rw [List.pairwise_cons]
        exact h

/-- The output of `sortDescBy` is sorted descending by the key. -/
theorem pairwise_sortDescBy {α : Type} (key : α → ℚ) (l : List α) :
    (sortDescBy key l).Pairwise (fun a b => key b ≤ key a) := by
  induction l with
  | nil => simp [sortDescBy]
  | cons x t ih => exact pairwise_insertDescBy key x _ ih

theorem filter_insertDescBy_pos {α : Type} (key : α → ℚ) (x : α) (k : ℚ)
    (l : List α) (hx : key x = k)
    (hl : l.Pairwise (fun a b => key b ≤ key a)) :
    (insertDescBy key x l).filter (fun a => decide (key a = k)) =
      x :: l.filter (fun a => decide (key a = k)) := by
  induction l with
  | nil => simp [insertDescBy, List.filter, hx]
  | cons y t ih =>
    rw [List.pairwise_cons] at hl
    unfold insertDescBy
    split
    · rename_i hlt
      have hy : ¬ (key y = k) := by
        rw [hx] at hlt
        exact fun hk => absurd hk (ne_of_gt hlt)
      rw [List.filter_cons, List.filter_cons]
      simp only [decide_eq_true_eq, hy, if_neg, ite_false]
      exact ih hl.2
    · rw [List.filter_cons]
      simp [hx]

theorem filter_insertDescBy_neg {α : Type} (key : α → ℚ) (x : α) (k : ℚ)
    (l : List α) (hx : ¬ key x = k) :
    (insertDescBy key x l).filter (fun a => decide (key a = k)) =
      l.filter (fun a => decide (key a = k)) := by
  induction l with
  | nil => simp [insertDescBy, List.filter, hx]
  | cons y t ih =>
    unfold insertDescBy
    split
    · rw [List.filter_cons, List.filter_cons, ih]
    · rw [List.filter_cons]
      simp [hx]

/-- Stability of the descending sort: for every key value, the elements
carrying that key appear in the sorted output exactly in their original
relative order. -/
theorem filter_sortDescBy {α : Type} (key : α → ℚ) (k : ℚ) (l : List α) :
    (sortDescBy key l).filter (fun a => decide (key a = k)) =
      l.filter (fun a => decide (key a = k)) := by
  induction l with
  | nil => rfl
  | cons x t ih =>
    unfold sortDescBy
    by_cases hx : key x = k
    · rw [filter_insertDescBy_pos key x k _ hx (pairwise_sortDescBy key t), ih,
        List.filter_cons]
      simp [hx]
    · rw [filter_insertDescBy_neg key x k _ hx, ih, List.filter_cons]
      simp [hx]

/-- The per-item loop of `calculate_portfolio_roi` computes the list of
per-item calculations independently of the incoming state, and appends
exactly that list to the state. -/
theorem portfolioCalcsS_spec (m : CompanyMetrics) (bs : List Bottleneck)
    (s : List ROICalculation) :
    portfolioCalcsS m bs s =
      (bs.map (fun b => mkRoiCalc b m), s ++ bs.map (fun b => mkRoiCalc b m)) := by
  induction bs generalizing s with
  | nil => simp [portfolioCalcsS]
  | cons b t ih =>
    simp [portfolioCalcsS, calculateBottleneckRoiS, ih]

/-- The result of `calculate_portfolio_roi` is the pure aggregation of
the per-item calculations. -/
theorem calculatePortfolioRoi_eq (bs : List Bottleneck) (m : CompanyMetrics) :
    calculatePortfolioRoi bs m = portfolioFromCalcs (bs.map (fun b => mkRoiCalc b m)) := by
  simp [calculatePortfolioRoi, calculatePortfolioRoiS, portfolioCalcsS_spec]

/-- Whenever the aggregation returns (rather than raising), its
individual-projects list is the projection of the first 10 entries of
the roi-sorted calculation list. -/
theorem portfolioFromCalcs_projects (calcs : List ROICalculation) (r : PortfolioResult)
    (h : portfolioFromCalcs calcs = some r) :
    r.individual_projects = ((sortDescBy roiKey calcs).take 10).map projOf := by
  simp only [portfolioFromCalcs] at h
  split_ifs at h
  · cases h
    rfl
  · cases h
    rfl

/-- Characterization of the default-priority ladder: each tier
corresponds exactly to its half-open cost band. -/
theorem derivedPriority_characterization (a : ℚ) :
    (derivedPriority a = "critical" ↔ a > 100000)
    ∧ (derivedPriority a = "high" ↔ (50000 < a ∧ a ≤ 100000))
    ∧ (derivedPriority a = "medium" ↔ (10000 < a ∧ a ≤ 50000))
    ∧ (derivedPriority a = "low" ↔ a ≤ 10000) := by
  unfold derivedPriority
  split_ifs with h1 h2 h3
  · refine ⟨iff_of_true rfl h1, iff_of_false (by decide) ?_, iff_of_false (by decide) ?_,
      iff_of_false (by decide) ?_⟩
    · rintro ⟨-, hle⟩; linarith
    · rintro ⟨-, hle⟩; linarith
    · intro hle; linarith
  · refine ⟨iff_of_false (by decide) h1, iff_of_true rfl ⟨h2, le_of_not_lt h1⟩,
      iff_of_false (by decide) ?_, iff_of_false (by decide) ?_⟩
    · rintro ⟨-, hle⟩; linarith
    · intro hle; linarith
  · refine ⟨iff_of_false (by decide) h1, iff_of_false (by decide) ?_,
      iff_of_true rfl ⟨h3, le_of_not_lt h2⟩, iff_of_false (by decide) ?_⟩
    · rintro ⟨hgt, -⟩; exact h2 hgt
    · intro hle; linarith
  · refine ⟨iff_of_false (by decide) h1, iff_of_false (by decide) ?_,
      iff_of_false (by decide) ?_, iff_of_true rfl (le_of_not_lt h3)⟩
    · rintro ⟨hgt, -⟩; exact h2 hgt
    · rintro ⟨hgt, -⟩; exact h3 hgt

/-- C1: the claim states that calculate_portfolio is total and never
propagates a division-by-zero exception, in particular when
total_implementation_cost is positive and total_annual_savings is 0.
The code contradicts it: on a single bottleneck with zero annualized
hours the totals are implementation cost 25000 and savings 0, the
guard `total_implementation_cost > 0` is passed, and the payback
division by `total_annual_savings` raises (modelled as `none`). -/
theorem portfolio_zero_savings_division_error :
    calculatePortfolioRoi [bC1] mC1 = none := by
  simp [calculatePortfolioRoi, calculatePortfolioRoiS, portfolioCalcsS, calculateBottleneckRoiS,
    portfolioFromCalcs, mkRoiCalc, annualSavingsOf, currentCostOf, improvedCostOf, getHourlyCost,
    complexityCost, sortDescBy, insertDescBy, roiKey, bC1, mC1]

/-- C8: calculate_portfolio on the empty bottleneck list returns zero
totals, portfolio roi 0 and payback 0 (not infinity), and empty
project, recommendation and phase lists. -/
theorem portfolio_empty_input (m : CompanyMetrics) :
    calculatePortfolioRoi [] m = some ⟨[], ⟨0, 0, 0, 0, 0, 0, 0⟩, [], []⟩ := rfl

/-- C4 counterexample: the claim states that no mutable analyzer state
is created or modified by a call and nothing accumulates across calls;
in the code, `calculate_bottleneck_roi` appends the computed
calculation to `self.calculations`, so a call on an empty state leaves
a non-empty state. -/
theorem analyzer_state_is_mutated :
    (calculateBottleneckRoiS bC4 mC4 []).2 ≠ [] := by
  simp [calculateBottleneckRoiS]

/-- C4 amended: each operation appends its per-item calculations to
`self.calculations` (benchmark appends nothing), and that is the only
state effect: the value returned by every operation is independent of
the accumulated state, depending only on the call arguments and the
constant benchmark table. -/
theorem analyzer_results_state_independent (b : Bottleneck) (bs : List Bottleneck)
    (m : CompanyMetrics) (s s₁ : List ROICalculation) :
    (calculateBottleneckRoiS b m s).1 = mkRoiCalc b m
    ∧ (calculateBottleneckRoiS b m s).2 = s ++ [mkRoiCalc b m]
    ∧ (calculatePortfolioRoiS bs m s).1 = (calculatePortfolioRoiS bs m s₁).1
    ∧ (calculatePortfolioRoiS bs m s).2 = s ++ bs.map (fun x => mkRoiCalc x m)
    ∧ benchmarkAgainstIndustryS m s = (benchmarkAgainstIndustry m, s)
    ∧ (generateExecutiveSummaryS m bs s).1 = (generateExecutiveSummaryS m bs s₁).1
    ∧ (generateExecutiveSummaryS m bs s).2 = s ++ bs.map (fun x => mkRoiCalc x m) := by
  refine ⟨rfl, rfl, ?_, ?_, rfl, ?_, ?_⟩ <;>
    simp [calculatePortfolioRoiS, generateExecutiveSummaryS, portfolioCalcsS_spec]

/-- C7: whenever the per-item calculation has non-positive annual
savings, its roi percentage is 0 and its payback period is positive
infinity (modelled `none`), regardless of the implementation cost. -/
theorem roi_nonpositive_savings (b : Bottleneck) (m : CompanyMetrics)
    (h : (mkRoiCalc b m).annual_savings ≤ 0) :
    (mkRoiCalc b m).roi_percentage = 0
    ∧ (mkRoiCalc b m).payback_period_months = none := by
  have h₁ : annualSavingsOf b m ≤ 0 := h
  have hns : ¬ annualSavingsOf b m > 0 := by linarith
  dsimp only [mkRoiCalc]
  rw [if_neg hns, if_neg hns]
  exact ⟨rfl, rfl⟩

/-- C7 witness: a bottleneck with zero automation potential has zero
annual savings, roi 0 and infinite payback. -/
theorem roi_nonpositive_savings_witness :
    (mkRoiCalc bW7 mW7).annual_savings ≤ 0
    ∧ (mkRoiCalc bW7 mW7).roi_percentage = 0
    ∧ (mkRoiCalc bW7 mW7).payback_period_months = none := by
  have h : (mkRoiCalc bW7 mW7).annual_savings ≤ 0 := by
    show annualSavingsOf bW7 mW7 ≤ 0
    norm_num [annualSavingsOf, currentCostOf, improvedCostOf, getHourlyCost, bW7, mW7]
  exact ⟨h, (roi_nonpositive_savings bW7 mW7 h).1, (roi_nonpositive_savings bW7 mW7 h).2⟩

/-- C10: the confidence level of every per-item calculation lies in
the closed interval from 0.5 to 1.0. -/
theorem confidence_level_in_range (b : Bottleneck) (m : CompanyMetrics) :
    1/2 ≤ (mkRoiCalc b m).confidence_level ∧ (mkRoiCalc b m).confidence_level ≤ 1 := by
  show 1/2 ≤ calculateConfidence b m ∧ calculateConfidence b m ≤ 1
  simp only [calculateConfidence]
  constructor
  · refine le_min ?_ (by norm_num)
    split_ifs <;> norm_num
  · exact min_le_right _ _

/-- C3 counterexample: the claim states the benchmark reports
revenue_per_employee as annual_revenue / max(employee_count, 1), which
for 0 employees and revenue 100000 would be 100000; the code reports 0
in that case. -/
theorem benchmark_rpe_zero_employees :
    (benchmarkAgainstIndustry mC3).company_rpe = 0
    ∧ (100000 : ℚ) / max (0 : ℚ) 1 = 100000
    ∧ (benchmarkAgainstIndustry mC3).company_rpe ≠ (100000 : ℚ) / max (0 : ℚ) 1 := by
  refine ⟨?_, by norm_num, ?_⟩ <;>
    norm_num [benchmarkAgainstIndustry, mC3]

/-- C3 amended: the benchmark reports the company revenue per employee
as annual_revenue / employee_count when the employee count is positive
and as 0 otherwise (a missing employee count defaults to 1); in
particular an explicit employee count of 0 yields 0, not the annual
revenue. -/
theorem benchmark_rpe_guarded (m : CompanyMetrics) :
    (benchmarkAgainstIndustry m).company_rpe =
      (if m.employee_count.getD 1 > 0 then (m.annual_revenue.getD 0) / m.employee_count.getD 1
        else 0)
    ∧ (m.employee_count = some 0 → (benchmarkAgainstIndustry m).company_rpe = 0) := by
  constructor
  · rfl
  · intro h
    simp [benchmarkAgainstIndustry, h]

/-- C3 witness: concrete metrics with zero employees, where the
benchmark reports 0 revenue per employee. -/
theorem benchmark_rpe_guarded_witness :
    mW3.employee_count = some 0 ∧ (benchmarkAgainstIndustry mW3).company_rpe = 0 :=
  ⟨rfl, (benchmark_rpe_guarded mW3).2 rfl⟩

/-- C9: with no explicit priority supplied, the derived priority is
critical exactly above 100000 annual cost impact, high exactly on
(50000, 100000], medium exactly on (10000, 50000], low exactly at or
below 10000; an impact of exactly 100000 yields high, not critical. -/
theorem default_priority_bands (r : BottleneckRecord) (hp : r.priority = none) :
    ((processBottleneck r).priority = "critical"
      ↔ (processBottleneck r).annual_cost_impact > 100000)
    ∧ ((processBottleneck r).priority = "high"
      ↔ (50000 < (processBottleneck r).annual_cost_impact
          ∧ (processBottleneck r).annual_cost_impact ≤ 100000))
    ∧ ((processBottleneck r).priority = "medium"
      ↔ (10000 < (processBottleneck r).annual_cost_impact
          ∧ (processBottleneck r).annual_cost_impact ≤ 50000))
    ∧ ((processBottleneck r).priority = "low"
      ↔ (processBottleneck r).annual_cost_impact ≤ 10000)
    ∧ ((processBottleneck r).annual_cost_impact = 100000
      → (processBottleneck r).priority = "high") := by
  simp only [processBottleneck, hp]
  have hc := derivedPriority_characterization
    ((r.cost_impact.getD 0) * pipelineFrequencyMultiplier (r.frequency.getD "weekly"))
  refine ⟨hc.1, hc.2.1, hc.2.2.1, hc.2.2.2, ?_⟩
  intro he
  exact hc.2.1.2 ⟨by rw [he]; norm_num, le_of_eq he⟩

/-- C9 witness: a record with per-occurrence cost 100000/52 and the
weekly default frequency has annual cost impact exactly 100000 and is
assigned priority high, not critical. -/
theorem default_priority_bands_witness :
    rW9.priority = none
    ∧ (processBottleneck rW9).annual_cost_impact = 100000
    ∧ (processBottleneck rW9).priority = "high" := by
  have h : (processBottleneck rW9).annual_cost_impact = 100000 := by
    norm_num [processBottleneck, pipelineFrequencyMultiplier, rW9]
    all_goals decide
  exact ⟨rfl, h, (default_priority_bands rW9 rfl).2.2.2.2 h⟩

/-- C2 counterexample: the claim states that every unrecognized or
missing frequency string scales by 12; `process_bottleneck` instead
scales the unrecognized frequency "yearly" by 52 (hours 1 per
occurrence give an annual impact of 52, not 12). -/
theorem pipeline_unrecognized_frequency_uses_52 :
    (processBottleneck rC2).annual_hours_impact = 52 ∧ (52 : ℚ) ≠ 1 * 12 := by
  constructor
  · simp [processBottleneck, pipelineFrequencyMultiplier, rC2]
  · norm_num

/-- C2 amended: both annualizers use the mapping daily 250, weekly 52,
monthly 12, quarterly 4, but their fallbacks differ:
`calculate_annual_impact` lowercases its frequency and scales
unrecognized values by 12, while `process_bottleneck` is
case-sensitive and scales unrecognized or missing frequencies by 52
(the weekly default). -/
theorem annualize_frequency_mapping (b : ProcessBottleneckData) (r : BottleneckRecord) :
    (pyLower b.frequency = "daily"
      → calculateAnnualImpact b = (b.time_impact_hours * 250, b.cost_impact * 250))
    ∧ (pyLower b.frequency = "weekly"
      → calculateAnnualImpact b = (b.time_impact_hours * 52, b.cost_impact * 52))
    ∧ (pyLower b.frequency = "monthly"
      → calculateAnnualImpact b = (b.time_impact_hours * 12, b.cost_impact * 12))
    ∧ (pyLower b.frequency = "quarterly"
      → calculateAnnualImpact b = (b.time_impact_hours * 4, b.cost_impact * 4))
    ∧ (pyLower b.frequency ∉ (["daily", "weekly", "monthly", "quarterly"] : List String)
      → calculateAnnualImpact b = (b.time_impact_hours * 12, b.cost_impact * 12))
    ∧ (r.frequency.getD "weekly" = "daily"
      → (processBottleneck r).annual_hours_impact = (r.time_impact_hours.getD 0) * 250
        ∧ (processBottleneck r).annual_cost_impact = (r.cost_impact.getD 0) * 250)
    ∧ (r.frequency.getD "weekly" = "weekly"
      → (processBottleneck r).annual_hours_impact = (r.time_impact_hours.getD 0) * 52
        ∧ (processBottleneck r).annual_cost_impact = (r.cost_impact.getD 0) * 52)
    ∧ (r.frequency.getD "weekly" = "monthly"
      → (processBottleneck r).annual_hours_impact = (r.time_impact_hours.getD 0) * 12
        ∧ (processBottleneck r).annual_cost_impact = (r.cost_impact.getD 0) * 12)
    ∧ (r.frequency.getD "weekly" = "quarterly"
      → (processBottleneck r).annual_hours_impact = (r.time_impact_hours.getD 0) * 4
        ∧ (processBottleneck r).annual_cost_impact = (r.cost_impact.getD 0) * 4)
    ∧ (r.frequency.getD "weekly" ∉ (["daily", "weekly", "monthly", "quarterly"] : List String)
      → (processBottleneck r).annual_hours_impact = (r.time_impact_hours.getD 0) * 52
        ∧ (processBottleneck r).annual_cost_impact = (r.cost_impact.getD 0) * 52)
    ∧ (r.frequency = none
      → (processBottleneck r).annual_hours_impact = (r.time_impact_hours.getD 0) * 52
        ∧ (processBottleneck r).annual_cost_impact = (r.cost_impact.getD 0) * 52) := by
  refine ⟨?_, ?_, ?_, ?_, ?_, ?_, ?_, ?_, ?_, ?_, ?_⟩ <;> intro h
  · simp [calculateAnnualImpact, engineFrequencyMultiplier, h]
  · simp [calculateAnnualImpact, engineFrequencyMultiplier, h]
  · simp [calculateAnnualImpact, engineFrequencyMultiplier, h]
  · simp [calculateAnnualImpact, engineFrequencyMultiplier, h]
  · simp only [List.mem_cons, List.not_mem_nil, or_false, not_or] at h
    simp [calculateAnnualImpact, engineFrequencyMultiplier, h.1, h.2.1, h.2.2.1, h.2.2.2]
  · simp [processBottleneck, pipelineFrequencyMultiplier, h]
  · simp [processBottleneck, pipelineFrequencyMultiplier, h]
  · simp [processBottleneck, pipelineFrequencyMultiplier, h]
  · simp [processBottleneck, pipelineFrequencyMultiplier, h]
  · simp only [List.mem_cons, List.not_mem_nil, or_false, not_or] at h
    simp [processBottleneck, pipelineFrequencyMultiplier, h.1, h.2.1, h.2.2.1, h.2.2.2]
  · simp [processBottleneck, pipelineFrequencyMultiplier, h]

/-- C2 witness: the unrecognized frequency "Yearly" scales by 12 in
the engine annualizer and by 52 in the pipeline processor. -/
theorem annualize_frequency_mapping_witness :
    pyLower "Yearly" ∉ (["daily", "weekly", "monthly", "quarterly"] : List String)
    ∧ calculateAnnualImpact ⟨"n", "d", "dep", "Yearly", 2, 3, 1, "low"⟩ = (2 * 12, 3 * 12)
    ∧ (processBottleneck ⟨some "Yearly", some 2, some 3, none⟩).annual_hours_impact = 2 * 52 := by
  have h₁ : pyLower "Yearly" ∉ (["daily", "weekly", "monthly", "quarterly"] : List String) := by
    decide
  have h₂ : (some "Yearly" : Option String).getD "weekly"
      ∉ (["daily", "weekly", "monthly", "quarterly"] : List String) := by decide
  refine ⟨h₁, ?_, ?_⟩
  · exact (annualize_frequency_mapping ⟨"n", "d", "dep", "Yearly", 2, 3, 1, "low"⟩
      ⟨some "Yearly", some 2, some 3, none⟩).2.2.2.2.1 h₁
  · exact ((annualize_frequency_mapping ⟨"n", "d", "dep", "Yearly", 2, 3, 1, "low"⟩
      ⟨some "Yearly", some 2, some 3, none⟩).2.2.2.2.2.2.2.2.2.1 h₂).1

/-- C5: whenever calculate_portfolio returns, its individual-projects
list is the projection of the first 10 entries of the stable
roi-descending sort of the per-item calculations: it is sorted
descending by roi_percentage, equal-roi items keep their original
input order, its length is min(10, n), hence at most 10 and exactly 10
for 11 or more bottlenecks. -/
theorem portfolio_top10_sorted_stable (bs : List Bottleneck) (m : CompanyMetrics)
    (r : PortfolioResult) (h : calculatePortfolioRoi bs m = some r) :
    r.individual_projects =
      ((sortDescBy roiKey (bs.map (fun b => mkRoiCalc b m))).take 10).map projOf
    ∧ r.individual_projects.Pairwise (fun p q => q.roi_percentage ≤ p.roi_percentage)
    ∧ (∀ k : ℚ, (sortDescBy roiKey (bs.map (fun b => mkRoiCalc b m))).filter
          (fun c => decide (roiKey c = k))
        = (bs.map (fun b => mkRoiCalc b m)).filter (fun c => decide (roiKey c = k)))
    ∧ r.individual_projects.length = min 10 bs.length
    ∧ r.individual_projects.length ≤ 10
    ∧ (11 ≤ bs.length → r.individual_projects.length = 10) := by
  rw [calculatePortfolioRoi_eq] at h
  have hp := portfolioFromCalcs_projects _ _ h
  have hlen : r.individual_projects.length = min 10 bs.length := by
    rw [hp, List.length_map, List.length_take, length_sortDescBy, List.length_map]
  refine ⟨hp, ?_, fun k => filter_sortDescBy roiKey k _, hlen, ?_, ?_⟩
  · rw [hp]
    have hs := pairwise_sortDescBy roiKey (bs.map (fun b => mkRoiCalc b m))
    have ht := hs.sublist (List.take_sublist 10 _)
    exact ht.map projOf (fun a b hab => hab)
  · rw [hlen]
    exact min_le_left _ _
  · intro h11
    rw [hlen]
    omega

/-- C5 witness: the singleton portfolio for `bW5` returns `rW5`, whose
project list has length min(10, 1). -/
theorem portfolio_top10_sorted_stable_witness :
    calculatePortfolioRoi [bW5] mW5 = some rW5
    ∧ rW5.individual_projects.length = min 10 [bW5].length := by
  have hc : mkRoiCalc bW5 mW5 = cW5 := by
    norm_num [mkRoiCalc, annualSavingsOf, currentCostOf, improvedCostOf, getHourlyCost,
      calculateConfidence, truthyQ, truthyS, complexityCost, complexityTime, min_def,
      bW5, mW5, cW5]
    all_goals decide
  have h : calculatePortfolioRoi [bW5] mW5 = some rW5 := by
    rw [calculatePortfolioRoi_eq]
    simp only [List.map_cons, List.map_nil, hc]
    norm_num [portfolioFromCalcs, sortDescBy, insertDescBy, roiKey, projOf,
      generateRecommendations, createImplementationPhases, phaseKey, mkPhase, cW5, rW5]
  exact ⟨h, (portfolio_top10_sorted_stable [bW5] mW5 rW5 h).2.2.2.1⟩

/-- C6: the implementation phases built by the source are exactly the
specification construction: items stably sorted descending by
roi_percentage / max(time_to_implement_days, 1); phase 1 the first 3
with time at most 30 and roi above 50; phase 2 the next 3 not already
in phase 1 with time at most 90; phase 3 the next 3 remaining items
with no filter; empty phases omitted.  The sort is descending in the
phase key and keeps equal-key items in input order. -/
theorem implementation_phases_follow_spec (calcs : List ROICalculation) :
    createImplementationPhases calcs = phasesSpec calcs
    ∧ (sortDescBy phaseKey calcs).Pairwise (fun a b => phaseKey b ≤ phaseKey a)
    ∧ (∀ k : ℚ, (sortDescBy phaseKey calcs).filter (fun c => decide (phaseKey c = k))
        = calcs.filter (fun c => decide (phaseKey c = k))) := by
  refine ⟨?_, pairwise_sortDescBy phaseKey calcs, fun k => filter_sortDescBy phaseKey k calcs⟩
  have hfil : ∀ l p1 p2 : List ROICalculation,
      l.filter (fun c => !(decide (c ∈ p1 ++ p2)))
        = l.filter (fun c => !(decide (c ∈ p1)) && !(decide (c ∈ p2))) := by
    intro l p1 p2
    apply List.filter_congr
    intro a _
    simp [List.mem_append, not_or]
  simp only [createImplementationPhases, phasesSpec, phase3Spec, phase2Spec, phase1Spec]
  rw [hfil]
  simp only [List.isEmpty_iff]

end BusinessDoctor
